import Mathlib

/-!
Shallow embedding of the input-event normalization layer of the Stella2
`tcw3` platform-abstraction bridge, centred on the GTK backend glue in
`src/tcw3/pal/src/gtk/wndwidget.c` (with handler signatures from
`src/tcw3/pal/src/gtk/window.h`), and on the capability protocol declared
in `src/tcw3/pal/src/macos/TCWBridge.h`.

Events are modelled after the GDK event structures the C code receives;
coordinates, deltas and velocities are modelled as rationals (the C code
only forwards them, performing no arithmetic), timestamps as naturals.
-/

namespace Tcw

/-- GDK event types relevant to the widget's handlers: `GDK_BUTTON_PRESS`,
`GDK_2BUTTON_PRESS`, `GDK_3BUTTON_PRESS`, `GDK_BUTTON_RELEASE`,
`GDK_SCROLL`, `GDK_MOTION_NOTIFY`, `GDK_LEAVE_NOTIFY`. -/
inductive GdkEventType
  | gdkButtonPress
  | gdk2ButtonPress
  | gdk3ButtonPress
  | gdkButtonRelease
  | gdkScroll
  | gdkMotionNotify
  | gdkLeaveNotify
  deriving DecidableEq

/-- `GdkScrollDirection`: `GDK_SCROLL_UP`, `GDK_SCROLL_DOWN`,
`GDK_SCROLL_LEFT`, `GDK_SCROLL_RIGHT`, `GDK_SCROLL_SMOOTH`. -/
inductive GdkScrollDirection
  | up
  | down
  | left
  | right
  | smooth
  deriving DecidableEq

/-- `GdkEventButton`: the fields of the GDK button-event structure the
widget code reads (`type`, `x`, `y`, `button`), plus the `time` field
present in the structure but never read by the widget code. GDK button
numbers are 1-based (`button` is a `guint`). -/
structure GdkEventButton where
  etype : GdkEventType
  x : ℚ
  y : ℚ
  button : ℕ
  time : ℕ
  deriving DecidableEq

/-- `GdkEventMotion`: fields read by the widget code. -/
structure GdkEventMotion where
  etype : GdkEventType
  x : ℚ
  y : ℚ
  time : ℕ
  deriving DecidableEq

/-- `GdkEventCrossing`: the widget's leave handler ignores every field. -/
structure GdkEventCrossing where
  etype : GdkEventType
  time : ℕ
  deriving DecidableEq

/-- `GdkEventScroll`: the fields of the GDK scroll-event structure used by
the widget code directly (`x`, `y`, `time`) or through the GDK accessor
functions (`type`, `direction`, `delta_x`, `delta_y`, `is_stop`). -/
structure GdkEventScroll where
  etype : GdkEventType
  x : ℚ
  y : ℚ
  direction : GdkScrollDirection
  delta_x : ℚ
  delta_y : ℚ
  is_stop : Bool
  time : ℕ
  deriving DecidableEq

/-- GDK accessor `gdk_event_get_scroll_deltas`: succeeds (returning the
delta pair) exactly when the event is a scroll event whose direction is
`GDK_SCROLL_SMOOTH`. -/
def gdk_event_get_scroll_deltas (event : GdkEventScroll) : Option (ℚ × ℚ) :=
  if event.etype = GdkEventType.gdkScroll ∧
      event.direction = GdkScrollDirection.smooth then
    some (event.delta_x, event.delta_y)
  else
    none

/-- GDK accessor `gdk_event_get_scroll_direction`: succeeds (returning the
direction) exactly when the event is a scroll event whose direction is one
of the four cardinal directions (not `GDK_SCROLL_SMOOTH`). -/
def gdk_event_get_scroll_direction (event : GdkEventScroll) :
    Option GdkScrollDirection :=
  if event.etype = GdkEventType.gdkScroll ∧
      event.direction ≠ GdkScrollDirection.smooth then
    some event.direction
  else
    none

/-- GDK accessor `gdk_event_is_scroll_stop_event`: returns the scroll
event's `is_stop` flag. -/
def gdk_event_is_scroll_stop_event (event : GdkEventScroll) : Bool :=
  event.is_stop

/-- One invocation of a handler declared in `window.h` (all defined in
`window.rs`), as forwarded by the widget code. The argument lists mirror
the C signatures exactly; in particular `tcw_wnd_widget_discrete_scroll_handler`
has no timestamp parameter while the smooth-scroll handlers do. The
`wnd_ptr` argument, identical on every call of one widget, is left
implicit. -/
inductive HandlerCall
  | button (x y : ℚ) (is_pressed : ℕ) (button : ℤ)
  | motion (x y : ℚ)
  | leave
  | discrete_scroll (x y delta_x delta_y : ℚ)
  | smooth_scroll (x y delta_x delta_y : ℚ) (time : ℕ)
  | smooth_scroll_stop (time : ℕ)
  deriving DecidableEq

/-- `tcw_wnd_widget_button_press_event` from `wndwidget.c`: drops any
event whose type is not `GDK_BUTTON_PRESS` (the synthetic
`GDK_2BUTTON_PRESS`/`GDK_3BUTTON_PRESS` of a double click), otherwise
forwards one press with a 0-based button index; always returns `TRUE`.
The result is the list of forwarded handler calls paired with the
`gboolean` return value. -/
def tcw_wnd_widget_button_press_event (event : GdkEventButton) :
    List HandlerCall × Bool :=
  if event.etype ≠ GdkEventType.gdkButtonPress then
    ([], true)
  else
    ([HandlerCall.button event.x event.y 1 ((event.button : ℤ) - 1)], true)

/-- `tcw_wnd_widget_button_release_event` from `wndwidget.c`:
unconditionally forwards one release with a 0-based button index; always
returns `TRUE`. -/
def tcw_wnd_widget_button_release_event (event : GdkEventButton) :
    List HandlerCall × Bool :=
  ([HandlerCall.button event.x event.y 0 ((event.button : ℤ) - 1)], true)

/-- `tcw_wnd_widget_motion_notify_event` from `wndwidget.c`. -/
def tcw_wnd_widget_motion_notify_event (event : GdkEventMotion) :
    List HandlerCall × Bool :=
  ([HandlerCall.motion event.x event.y], true)

/-- `tcw_wnd_widget_leave_notify_event` from `wndwidget.c`: ignores the
event entirely. -/
def tcw_wnd_widget_leave_notify_event (_event : GdkEventCrossing) :
    List HandlerCall × Bool :=
  ([HandlerCall.leave], true)

/-- The `steps` table of `tcw_wnd_widget_scroll_event`: a four-entry array
indexed by the cardinal `GdkScrollDirection` values, mapping left to
(1, 0), right to (-1, 0), up to (0, 1) and down to (0, -1). The `smooth`
index does not exist in the C array and is unreachable at the only call
site (guarded by `gdk_event_get_scroll_direction`); it is given a dummy
value to make the Lean function total. -/
def steps : GdkScrollDirection → ℚ × ℚ
  | GdkScrollDirection.left => (1, 0)
  | GdkScrollDirection.right => (-1, 0)
  | GdkScrollDirection.up => (0, 1)
  | GdkScrollDirection.down => (0, -1)
  | GdkScrollDirection.smooth => (0, 0)

/-- `tcw_wnd_widget_scroll_event` from `wndwidget.c`: if the event carries
a smooth delta pair, forward either a stop signal (when the `is_stop` flag
is set) carrying only the timestamp, or a smooth-scroll call carrying
position, deltas and timestamp; otherwise, if the event carries a cardinal
direction, forward a discrete-scroll call with the unit vector from
`steps` (and no timestamp); otherwise forward nothing. Always returns
`TRUE`. -/
def tcw_wnd_widget_scroll_event (event : GdkEventScroll) :
    List HandlerCall × Bool :=
  match gdk_event_get_scroll_deltas event with
  | some (dx, dy) =>
    if gdk_event_is_scroll_stop_event event then
      ([HandlerCall.smooth_scroll_stop event.time], true)
    else
      ([HandlerCall.smooth_scroll event.x event.y dx dy event.time], true)
  | none =>
    match gdk_event_get_scroll_direction event with
    | some direction =>
      ([HandlerCall.discrete_scroll event.x event.y
          (steps direction).1 (steps direction).2], true)
    | none => ([], true)

/-- A native event dispatched to one of the widget's five pointer-event
entry points, as routed by the `GtkWidgetClass` vtable set up in
`tcw_wnd_widget_class_init`. -/
inductive NativeEvent
  | press (event : GdkEventButton)
  | release (event : GdkEventButton)
  | motion (event : GdkEventMotion)
  | leave (event : GdkEventCrossing)
  | scroll (event : GdkEventScroll)
  deriving DecidableEq

/-- Dispatch one native event to the widget handler selected by the
vtable, returning the forwarded calls and the `gboolean` result. -/
def handleEvent : NativeEvent → List HandlerCall × Bool
  | NativeEvent.press event => tcw_wnd_widget_button_press_event event
  | NativeEvent.release event => tcw_wnd_widget_button_release_event event
  | NativeEvent.motion event => tcw_wnd_widget_motion_notify_event event
  | NativeEvent.leave event => tcw_wnd_widget_leave_notify_event event
  | NativeEvent.scroll event => tcw_wnd_widget_scroll_event event

/-- Process a sequence of native events in order, concatenating the
forwarded calls. The widget object carries no mutable state besides the
constant `wnd_ptr`, so processing is a plain fold. -/
def processEvents : List NativeEvent → List HandlerCall
  | [] => []
  | event :: rest => (handleEvent event).1 ++ processEvents rest

/-- Number of press calls (`is_pressed = 1`) in a forwarded call list. -/
def countPresses (calls : List HandlerCall) : ℕ :=
  (calls.filter fun c =>
    match c with
    | HandlerCall.button _ _ is_pressed _ => is_pressed = 1
    | _ => false).length

/-- Number of release calls (`is_pressed = 0`) in a forwarded call list. -/
def countReleases (calls : List HandlerCall) : ℕ :=
  (calls.filter fun c =>
    match c with
    | HandlerCall.button _ _ is_pressed _ => is_pressed = 0
    | _ => false).length

/-- Number of smooth-scroll-stop calls in a forwarded call list. -/
def countStops (calls : List HandlerCall) : ℕ :=
  (calls.filter fun c =>
    match c with
    | HandlerCall.smooth_scroll_stop _ => true
    | _ => false).length

/-- Number of discrete-scroll calls in a forwarded call list. -/
def countDiscrete (calls : List HandlerCall) : ℕ :=
  (calls.filter fun c =>
    match c with
    | HandlerCall.discrete_scroll _ _ _ _ => true
    | _ => false).length

/-- Number of smooth-scroll (continuous) calls in a forwarded call list. -/
def countSmooth (calls : List HandlerCall) : ℕ :=
  (calls.filter fun c =>
    match c with
    | HandlerCall.smooth_scroll _ _ _ _ _ => true
    | _ => false).length

/-- The timestamp a forwarded handler call carries, when its C signature
has a `time` parameter: only `tcw_wnd_widget_smooth_scroll_handler` and
`tcw_wnd_widget_smooth_scroll_stop_handler` do. -/
def timeOf : HandlerCall → Option ℕ
  | HandlerCall.smooth_scroll _ _ _ _ time => some time
  | HandlerCall.smooth_scroll_stop time => some time
  | _ => none

/-- A terminal call on a capability handle: `release`/`cancel` for drag
and scroll listeners (`tcw_mousedraglistener_release` and friends in
`TCWBridge.h`), `fire`/`cancel` for timer invocations (`tcw_invoke_fire`,
`tcw_invoke_cancel`). -/
inductive TerminalCall
  | terminalRelease
  | terminalCancel
  deriving DecidableEq

/-- Modelled from the spec: the upstream implementations of the terminal
capability calls declared in `TCWBridge.h` (`tcw_mousedraglistener_release`,
`tcw_mousedraglistener_cancel`, `tcw_scrolllistener_release`,
`tcw_scrolllistener_cancel`, `tcw_invoke_fire`, `tcw_invoke_cancel`, all
defined in `window.rs`/`timer.rs`) are not among the provided sources.
Per the consume-on-call contract, a capability records whether a terminal
call has consumed it and which downstream terminal effects have run. -/
structure Capability where
  consumed : Bool
  effects : List TerminalCall
  deriving DecidableEq

/-- Modelled from the spec: a freshly created capability, not yet
consumed, with no downstream effect run. -/
def Capability.fresh : Capability :=
  { consumed := false, effects := [] }

/-- Modelled from the spec: one terminal call on a capability. The first
terminal call consumes the capability and runs its downstream effect;
any terminal call on an already-consumed capability is a no-op (rejected),
running no downstream effect. -/
def Capability.terminal (cap : Capability) (call : TerminalCall) :
    Capability :=
  if cap.consumed then
    cap
  else
    { consumed := true, effects := cap.effects ++ [call] }

/-- Modelled from the spec: run a sequence of terminal calls against a
capability, in order. -/
def Capability.runCalls (cap : Capability) : List TerminalCall → Capability
  | [] => cap
  | call :: rest => (cap.terminal call).runCalls rest

/-- State of the Gesture Arbiter for one (window, gesture type) pair:
either no transient capture surface is active, or one gesture is active
and owns the capability identified by the given token. -/
inductive GestureState
  | Idle
  | GestureActive (cap : ℕ)
  deriving DecidableEq

/-- Modelled from the spec: the Gesture Arbiter's per-(window, gesture
type) state — the implementation (`TCWGestureHandlerView.m`,
`TCWWindow.m`) is not among the provided sources, only its headers are.
`nextCap` supplies fresh capability tokens. -/
structure Arbiter where
  state : GestureState
  nextCap : ℕ
  deriving DecidableEq

/-- Modelled from the spec: a request to start a gesture. While a gesture
is already active for this (window, gesture type), the request is ignored:
the arbiter is unchanged and no capability is produced. Otherwise a fresh
capability token is produced and the arbiter enters `GestureActive`. -/
def Arbiter.startGesture (a : Arbiter) : Arbiter × Option ℕ :=
  match a.state with
  | GestureState.GestureActive _ => (a, none)
  | GestureState.Idle =>
    ({ state := GestureState.GestureActive a.nextCap,
       nextCap := a.nextCap + 1 }, some a.nextCap)

/-- Modelled from the spec: normal or abnormal end of the active gesture
(release or cancel); the transient surface is torn down and the primary
surface regains responsibility. -/
def Arbiter.endGesture (a : Arbiter) : Arbiter :=
  { a with state := GestureState.Idle }

/-- C1: a native button-press event tagged as the synthetic secondary
click of a double-click (GTK event type other than `GDK_BUTTON_PRESS`) is
dropped unconditionally — the Double-Activation Filter forwards no call
for it, neither a press nor a release — while an ordinary press event of
type `GDK_BUTTON_PRESS` is forwarded exactly once as a press and never as
a release. -/
theorem double_activation_filter_drops_synthetic_press
    (event : GdkEventButton) :
    (event.etype ≠ GdkEventType.gdkButtonPress →
      (tcw_wnd_widget_button_press_event event).1 = []) ∧
    (event.etype = GdkEventType.gdkButtonPress →
      countPresses (tcw_wnd_widget_button_press_event event).1 = 1 ∧
      countReleases (tcw_wnd_widget_button_press_event event).1 = 0) := by
  constructor
  · intro h
    simp [tcw_wnd_widget_button_press_event, h]
  · intro h
    simp [tcw_wnd_widget_button_press_event, h, countPresses, countReleases]

/-- Witness for C1 at concrete events: a `GDK_2BUTTON_PRESS` at (10, 20)
is dropped; a `GDK_BUTTON_PRESS` at (10, 20) yields one press and no
release. -/
theorem double_activation_filter_drops_synthetic_press_witness :
    (tcw_wnd_widget_button_press_event
      ⟨GdkEventType.gdk2ButtonPress, 10, 20, 1, 5⟩).1 = [] ∧
    countPresses (tcw_wnd_widget_button_press_event
      ⟨GdkEventType.gdkButtonPress, 10, 20, 1, 5⟩).1 = 1 ∧
    countReleases (tcw_wnd_widget_button_press_event
      ⟨GdkEventType.gdkButtonPress, 10, 20, 1, 5⟩).1 = 0 :=
  ⟨(double_activation_filter_drops_synthetic_press
      ⟨GdkEventType.gdk2ButtonPress, 10, 20, 1, 5⟩).1 (by decide),
   (double_activation_filter_drops_synthetic_press
      ⟨GdkEventType.gdkButtonPress, 10, 20, 1, 5⟩).2 rfl⟩

/-- C3: whenever the scroll handler forwards a discrete-scroll call, its
synthesized delta vector is one of (1, 0), (-1, 0), (0, 1), (0, -1), and
it is determined by the event's direction exactly as the fixed table
left → (1, 0), right → (-1, 0), up → (0, 1), down → (0, -1). -/
theorem discrete_scroll_direction_table
    (e : GdkEventScroll) (x y dx dy : ℚ)
    (h : HandlerCall.discrete_scroll x y dx dy ∈
      (tcw_wnd_widget_scroll_event e).1) :
    ((dx, dy) = ((1 : ℚ), (0 : ℚ)) ∨ (dx, dy) = (-1, 0) ∨
      (dx, dy) = (0, 1) ∨ (dx, dy) = (0, -1)) ∧
    (e.direction = GdkScrollDirection.left → (dx, dy) = (1, 0)) ∧
    (e.direction = GdkScrollDirection.right → (dx, dy) = (-1, 0)) ∧
    (e.direction = GdkScrollDirection.up → (dx, dy) = (0, 1)) ∧
    (e.direction = GdkScrollDirection.down → (dx, dy) = (0, -1)) := by
  rcases e with ⟨et, ex, ey, dir, edx, edy, stop, t⟩
  cases et <;> cases dir <;> cases stop <;>
    simp_all [tcw_wnd_widget_scroll_event, gdk_event_get_scroll_deltas,
      gdk_event_get_scroll_direction, gdk_event_is_scroll_stop_event, steps]

/-- Witness for C3 at a concrete event: a `GDK_SCROLL_LEFT` discrete
scroll at (2, 3) synthesizes the vector (1, 0). -/
theorem discrete_scroll_direction_table_witness :
    ((1, 0) = ((1 : ℚ), (0 : ℚ)) ∨ ((1 : ℚ), (0 : ℚ)) = (-1, 0) ∨
      ((1 : ℚ), (0 : ℚ)) = (0, 1) ∨ ((1 : ℚ), (0 : ℚ)) = (0, -1)) ∧
    ((⟨GdkEventType.gdkScroll, 2, 3, GdkScrollDirection.left, 0, 0,
        false, 9⟩ : GdkEventScroll).direction = GdkScrollDirection.left →
      ((1 : ℚ), (0 : ℚ)) = (1, 0)) ∧
    ((⟨GdkEventType.gdkScroll, 2, 3, GdkScrollDirection.left, 0, 0,
        false, 9⟩ : GdkEventScroll).direction = GdkScrollDirection.right →
      ((1 : ℚ), (0 : ℚ)) = (-1, 0)) ∧
    ((⟨GdkEventType.gdkScroll, 2, 3, GdkScrollDirection.left, 0, 0,
        false, 9⟩ : GdkEventScroll).direction = GdkScrollDirection.up →
      ((1 : ℚ), (0 : ℚ)) = (0, 1)) ∧
    ((⟨GdkEventType.gdkScroll, 2, 3, GdkScrollDirection.left, 0, 0,
        false, 9⟩ : GdkEventScroll).direction = GdkScrollDirection.down →
      ((1 : ℚ), (0 : ℚ)) = (0, -1)) :=
  discrete_scroll_direction_table
    ⟨GdkEventType.gdkScroll, 2, 3, GdkScrollDirection.left, 0, 0, false, 9⟩
    2 3 1 0 (by decide)

/-- C7: a continuous scroll event (smooth delta pair reported, stop flag
clear) is forwarded as exactly one smooth-scroll call carrying the event's
position, the delta pair unchanged, and the backend timestamp; a scroll
event with the stop flag set is forwarded as exactly one stop call
carrying only the backend timestamp (no position, no delta). -/
theorem smooth_scroll_forwards_delta_and_time
    (e : GdkEventScroll) (dx dy : ℚ)
    (hd : gdk_event_get_scroll_deltas e = some (dx, dy)) :
    (e.is_stop = false →
      (tcw_wnd_widget_scroll_event e).1 =
        [HandlerCall.smooth_scroll e.x e.y dx dy e.time]) ∧
    (e.is_stop = true →
      (tcw_wnd_widget_scroll_event e).1 =
        [HandlerCall.smooth_scroll_stop e.time]) := by
  constructor <;> intro hs <;>
    simp [tcw_wnd_widget_scroll_event, hd, gdk_event_is_scroll_stop_event, hs]

/-- Witness for C7 at concrete events: a continuous delta (0, -5) at
t = 100 yields a smooth-scroll call with (0, -5) and 100; a stop flag at
t = 150 yields a stop call with 150 only. -/
theorem smooth_scroll_forwards_delta_and_time_witness :
    (tcw_wnd_widget_scroll_event
      ⟨GdkEventType.gdkScroll, 3, 4, GdkScrollDirection.smooth, 0, -5,
        false, 100⟩).1 = [HandlerCall.smooth_scroll 3 4 0 (-5) 100] ∧
    (tcw_wnd_widget_scroll_event
      ⟨GdkEventType.gdkScroll, 3, 4, GdkScrollDirection.smooth, 0, 0,
        true, 150⟩).1 = [HandlerCall.smooth_scroll_stop 150] :=
  ⟨(smooth_scroll_forwards_delta_and_time
      ⟨GdkEventType.gdkScroll, 3, 4, GdkScrollDirection.smooth, 0, -5,
        false, 100⟩ 0 (-5) (by decide)).1 rfl,
   (smooth_scroll_forwards_delta_and_time
      ⟨GdkEventType.gdkScroll, 3, 4, GdkScrollDirection.smooth, 0, 0,
        true, 150⟩ 0 0 (by decide)).2 rfl⟩

/-- C8: every forwarded button press and button release carries the
backend's 1-based button number normalized to zero-based: the downstream
button index is exactly the native `event->button` minus one. -/
theorem button_index_zero_based (e : GdkEventButton) :
    (e.etype = GdkEventType.gdkButtonPress →
      (tcw_wnd_widget_button_press_event e).1 =
        [HandlerCall.button e.x e.y 1 ((e.button : ℤ) - 1)]) ∧
    (tcw_wnd_widget_button_release_event e).1 =
      [HandlerCall.button e.x e.y 0 ((e.button : ℤ) - 1)] := by
  constructor
  · intro h
    simp [tcw_wnd_widget_button_press_event, h]
  · rfl

/-- Witness for C8 at a concrete event: native button 3 is forwarded as
index 2 on both press and release. -/
theorem button_index_zero_based_witness :
    (tcw_wnd_widget_button_press_event
      ⟨GdkEventType.gdkButtonPress, 1, 2, 3, 7⟩).1 =
      [HandlerCall.button 1 2 1 2] ∧
    (tcw_wnd_widget_button_release_event
      ⟨GdkEventType.gdkButtonPress, 1, 2, 3, 7⟩).1 =
      [HandlerCall.button 1 2 0 2] :=
  ⟨(button_index_zero_based ⟨GdkEventType.gdkButtonPress, 1, 2, 3, 7⟩).1 rfl,
   (button_index_zero_based ⟨GdkEventType.gdkButtonPress, 1, 2, 3, 7⟩).2⟩

/-- C10: a scroll event reporting neither a smooth delta pair nor a
cardinal direction invokes no downstream handler at all, and every widget
event handler (press, release, motion, leave, scroll) returns `TRUE`
regardless of whether anything was forwarded, so dropped events do not
propagate further. -/
theorem dropped_events_consumed :
    (∀ e : GdkEventScroll,
      gdk_event_get_scroll_deltas e = none →
      gdk_event_get_scroll_direction e = none →
      (tcw_wnd_widget_scroll_event e).1 = []) ∧
    (∀ e : GdkEventScroll, (tcw_wnd_widget_scroll_event e).2 = true) ∧
    (∀ e : GdkEventButton,
      (tcw_wnd_widget_button_press_event e).2 = true ∧
      (tcw_wnd_widget_button_release_event e).2 = true) ∧
    (∀ e : GdkEventMotion, (tcw_wnd_widget_motion_notify_event e).2 = true) ∧
    (∀ e : GdkEventCrossing,
      (tcw_wnd_widget_leave_notify_event e).2 = true) := by
  refine ⟨fun e hd hdir => ?_, fun e => ?_, fun e => ⟨?_, rfl⟩, fun e => rfl,
    fun e => rfl⟩
  · simp [tcw_wnd_widget_scroll_event, hd, hdir]
  · unfold tcw_wnd_widget_scroll_event
    rcases hd : gdk_event_get_scroll_deltas e with _ | ⟨dx, dy⟩ <;> simp
    · rcases gdk_event_get_scroll_direction e <;> simp
    · split <;> rfl
  · unfold tcw_wnd_widget_button_press_event
    split <;> rfl

/-- Witness for C10 at a concrete event: a scroll-typed structure whose
`type` field is not `GDK_SCROLL` satisfies neither accessor and is
dropped. -/
theorem dropped_events_consumed_witness :
    (tcw_wnd_widget_scroll_event
      ⟨GdkEventType.gdkMotionNotify, 0, 0, GdkScrollDirection.up, 0, 0,
        false, 0⟩).1 = [] :=
  dropped_events_consumed.1
    ⟨GdkEventType.gdkMotionNotify, 0, 0, GdkScrollDirection.up, 0, 0,
      false, 0⟩ (by decide) (by decide)

/-- Counterexample to C2 as stated: the claim requires momentum-stop
classification if and only if the stop flag is set, over all four
combinations of (has-delta, is-stop-flag). At the concrete scroll event
with cardinal direction `GDK_SCROLL_UP` (so no delta pair) and the
`is_stop` flag set, the code invokes the discrete-scroll handler and not
the stop handler: the stop flag is checked only inside the has-delta
branch. -/
theorem scroll_classification_counterexample :
    gdk_event_is_scroll_stop_event
      ⟨GdkEventType.gdkScroll, 0, 0, GdkScrollDirection.up, 0, 0,
        true, 7⟩ = true ∧
    countStops (tcw_wnd_widget_scroll_event
      ⟨GdkEventType.gdkScroll, 0, 0, GdkScrollDirection.up, 0, 0,
        true, 7⟩).1 = 0 ∧
    countDiscrete (tcw_wnd_widget_scroll_event
      ⟨GdkEventType.gdkScroll, 0, 0, GdkScrollDirection.up, 0, 0,
        true, 7⟩).1 = 1 := by
  decide

/-- C2 (amended): for scroll events, classification is a pure function of
(has-delta, is-stop-flag): an event reporting a smooth delta pair is
classified momentum-stop when the stop flag is set and continuous
otherwise; an event reporting no delta pair is classified discrete
regardless of the stop flag — so momentum-stop holds iff has-delta and
stop-flag together, not iff the stop flag alone. -/
theorem scroll_classification_pure_function (e : GdkEventScroll)
    (he : e.etype = GdkEventType.gdkScroll) :
    ((gdk_event_get_scroll_deltas e).isSome = true → e.is_stop = true →
      (tcw_wnd_widget_scroll_event e).1 =
        [HandlerCall.smooth_scroll_stop e.time]) ∧
    ((gdk_event_get_scroll_deltas e).isSome = true → e.is_stop = false →
      (tcw_wnd_widget_scroll_event e).1 =
        [HandlerCall.smooth_scroll e.x e.y e.delta_x e.delta_y e.time]) ∧
    ((gdk_event_get_scroll_deltas e).isSome = false →
      (tcw_wnd_widget_scroll_event e).1 =
        [HandlerCall.discrete_scroll e.x e.y
          (steps e.direction).1 (steps e.direction).2]) := by
  rcases e with ⟨et, ex, ey, dir, edx, edy, stop, t⟩
  subst he
  cases dir <;> cases stop <;>
    simp_all [tcw_wnd_widget_scroll_event, gdk_event_get_scroll_deltas,
      gdk_event_get_scroll_direction, gdk_event_is_scroll_stop_event]

/-- Witness for the amended C2 at concrete events covering the four
(has-delta, is-stop-flag) combinations. -/
theorem scroll_classification_pure_function_witness :
    (tcw_wnd_widget_scroll_event
      ⟨GdkEventType.gdkScroll, 1, 2, GdkScrollDirection.smooth, 3, 4,
        true, 11⟩).1 = [HandlerCall.smooth_scroll_stop 11] ∧
    (tcw_wnd_widget_scroll_event
      ⟨GdkEventType.gdkScroll, 1, 2, GdkScrollDirection.smooth, 3, 4,
        false, 12⟩).1 = [HandlerCall.smooth_scroll 1 2 3 4 12] ∧
    (tcw_wnd_widget_scroll_event
      ⟨GdkEventType.gdkScroll, 1, 2, GdkScrollDirection.down, 0, 0,
        true, 13⟩).1 = [HandlerCall.discrete_scroll 1 2 0 (-1)] ∧
    (tcw_wnd_widget_scroll_event
      ⟨GdkEventType.gdkScroll, 1, 2, GdkScrollDirection.down, 0, 0,
        false, 14⟩).1 = [HandlerCall.discrete_scroll 1 2 0 (-1)] :=
  ⟨(scroll_classification_pure_function
      ⟨GdkEventType.gdkScroll, 1, 2, GdkScrollDirection.smooth, 3, 4,
        true, 11⟩ rfl).1 (by decide) rfl,
   (scroll_classification_pure_function
      ⟨GdkEventType.gdkScroll, 1, 2, GdkScrollDirection.smooth, 3, 4,
        false, 12⟩ rfl).2.1 (by decide) rfl,
   (scroll_classification_pure_function
      ⟨GdkEventType.gdkScroll, 1, 2, GdkScrollDirection.down, 0, 0,
        true, 13⟩ rfl).2.2 (by decide),
   (scroll_classification_pure_function
      ⟨GdkEventType.gdkScroll, 1, 2, GdkScrollDirection.down, 0, 0,
        false, 14⟩ rfl).2.2 (by decide)⟩

/-- Counterexample to C4 as stated: the claim requires the discrete-scroll
forwarding path to carry the backend timestamp. At the concrete discrete
scroll event (direction `GDK_SCROLL_UP`, backend time 42), the forwarded
call is a discrete-scroll call, whose C signature
(`tcw_wnd_widget_discrete_scroll_handler` in `window.h`) has no timestamp
parameter: the call carries no timestamp at all. -/
theorem discrete_scroll_timestamp_counterexample :
    (tcw_wnd_widget_scroll_event
      ⟨GdkEventType.gdkScroll, 5, 6, GdkScrollDirection.up, 0, 0,
        false, 42⟩).1 = [HandlerCall.discrete_scroll 5 6 0 1] ∧
    timeOf (HandlerCall.discrete_scroll 5 6 0 1) = none := by
  decide

/-- C4 (amended): every timestamp carried by a forwarded scroll call is
exactly the backend-supplied event time — the tracker never generates a
timestamp of its own; continuous (smooth) scroll calls carry that
timestamp, while discrete-scroll calls carry no timestamp at all because
their handler signature has none. -/
theorem scroll_timestamps_from_backend (e : GdkEventScroll) :
    (∀ c ∈ (tcw_wnd_widget_scroll_event e).1,
      ∀ t, timeOf c = some t → t = e.time) ∧
    (∀ x y dx dy, HandlerCall.discrete_scroll x y dx dy ∈
        (tcw_wnd_widget_scroll_event e).1 →
      timeOf (HandlerCall.discrete_scroll x y dx dy) = none) ∧
    (∀ d, gdk_event_get_scroll_deltas e = some d → e.is_stop = false →
      (tcw_wnd_widget_scroll_event e).1 =
        [HandlerCall.smooth_scroll e.x e.y d.1 d.2 e.time]) := by
  refine ⟨?_, ?_, ?_⟩
  · intro c hc t ht
    unfold tcw_wnd_widget_scroll_event at hc
    rcases hd : gdk_event_get_scroll_deltas e with _ | ⟨dx, dy⟩ <;>
      rw [hd] at hc
    · rcases hdir : gdk_event_get_scroll_direction e with _ | dir <;>
        rw [hdir] at hc <;> simp at hc
      subst hc
      simp [timeOf] at ht
    · by_cases hs : gdk_event_is_scroll_stop_event e = true <;>
        simp [hs] at hc <;> subst hc <;> simp [timeOf] at ht <;>
        exact ht.symm
  · intro x y dx dy hmem
    rfl
  · intro d hd hs
    rcases d with ⟨dx, dy⟩
    simp [tcw_wnd_widget_scroll_event, hd,
      gdk_event_is_scroll_stop_event, hs]

/-- Witness for the amended C4 at concrete events: a smooth scroll at
t = 100 forwards t = 100; a discrete scroll carries no timestamp. -/
theorem scroll_timestamps_from_backend_witness :
    (100 : ℕ) = 100 ∧
    timeOf (HandlerCall.discrete_scroll 5 6 0 1) = none ∧
    (tcw_wnd_widget_scroll_event
      ⟨GdkEventType.gdkScroll, 3, 4, GdkScrollDirection.smooth, 0, -5,
        false, 100⟩).1 = [HandlerCall.smooth_scroll 3 4 0 (-5) 100] :=
  ⟨(scroll_timestamps_from_backend
      ⟨GdkEventType.gdkScroll, 3, 4, GdkScrollDirection.smooth, 0, -5,
        false, 100⟩).1 (HandlerCall.smooth_scroll 3 4 0 (-5) 100)
      (by decide) 100 rfl,
   (scroll_timestamps_from_backend
      ⟨GdkEventType.gdkScroll, 5, 6, GdkScrollDirection.up, 0, 0,
        false, 42⟩).2.1 5 6 0 1 (by decide),
   (scroll_timestamps_from_backend
      ⟨GdkEventType.gdkScroll, 3, 4, GdkScrollDirection.smooth, 0, -5,
        false, 100⟩).2.2 (0, -5) (by decide) rfl⟩

/-- A terminal call on an already-consumed capability leaves it entirely
unchanged, and so does any further sequence of calls. -/
theorem Capability.runCalls_of_consumed (cap : Capability)
    (calls : List TerminalCall) (h : cap.consumed = true) :
    cap.runCalls calls = cap := by
  induction calls with
  | nil => rfl
  | cons call rest ih => simp [Capability.runCalls, Capability.terminal, h, ih]

/-- C5: over any sequence of terminal calls on a fresh capability, the
downstream terminal effects that actually run are exactly the first call
of the sequence — at most one effect ever runs (so release and cancel,
or fire and cancel, are mutually exclusive), a second terminal call never
double-invokes downstream effects, and when at least one terminal call is
made exactly one effect runs. -/
theorem capability_single_terminal_effect (calls : List TerminalCall) :
    ((Capability.fresh.runCalls calls).effects = calls.take 1) ∧
    (calls ≠ [] → ((Capability.fresh.runCalls calls).effects).length = 1) := by
  rcases calls with _ | ⟨call, rest⟩
  · exact ⟨rfl, fun h => absurd rfl h⟩
  · have hstep : Capability.fresh.runCalls (call :: rest) =
        { consumed := true, effects := [call] } := by
      show (Capability.fresh.terminal call).runCalls rest = _
      rw [show Capability.fresh.terminal call =
        { consumed := true, effects := [call] } from rfl]
      exact Capability.runCalls_of_consumed _ rest rfl
    rw [hstep]
    exact ⟨rfl, fun _ => rfl⟩

/-- Witness for C5 at a concrete call sequence: a release followed by a
spurious second terminal call (cancel) runs exactly the release effect
once. -/
theorem capability_single_terminal_effect_witness :
    ((Capability.fresh.runCalls
        [TerminalCall.terminalRelease, TerminalCall.terminalCancel]).effects =
      [TerminalCall.terminalRelease, TerminalCall.terminalCancel].take 1) ∧
    ((Capability.fresh.runCalls
        [TerminalCall.terminalRelease, TerminalCall.terminalCancel]).effects.length
      = 1) :=
  ⟨(capability_single_terminal_effect
      [TerminalCall.terminalRelease, TerminalCall.terminalCancel]).1,
   (capability_single_terminal_effect
      [TerminalCall.terminalRelease, TerminalCall.terminalCancel]).2
      (by decide)⟩

/-- C6: a request to start a second gesture of the same type on the same
window while one is `GestureActive` is ignored: the arbiter state —
including the active gesture's capability token — is left untouched and
no new capability is produced. -/
theorem gesture_arbiter_ignores_second_start (a : Arbiter) (cap : ℕ)
    (h : a.state = GestureState.GestureActive cap) :
    a.startGesture = (a, none) := by
  unfold Arbiter.startGesture
  rw [h]

/-- Witness for C6 at a concrete arbiter: with capability 0 active, a
start request returns the arbiter unchanged and no capability. -/
theorem gesture_arbiter_ignores_second_start_witness :
    (⟨GestureState.GestureActive 0, 1⟩ : Arbiter).startGesture =
      (⟨GestureState.GestureActive 0, 1⟩, none) :=
  gesture_arbiter_ignores_second_start ⟨GestureState.GestureActive 0, 1⟩ 0 rfl

/-- C9: event handling is stateless and deterministic per event — the
calls forwarded for an event in any position of any event sequence are
exactly those of handling that event alone, independent of history; and
the double-click drop decision is keyed only on the event-kind tag, never
on the event's timestamp: the button handlers ignore the `time` field, and
two press events with the same type are either both dropped or both
forwarded. -/
theorem event_handling_stateless :
    (∀ (pre post : List NativeEvent) (ev : NativeEvent),
      processEvents (pre ++ ev :: post) =
        processEvents pre ++ (handleEvent ev).1 ++ processEvents post) ∧
    (∀ (e : GdkEventButton) (t : ℕ),
      tcw_wnd_widget_button_press_event { e with time := t } =
        tcw_wnd_widget_button_press_event e ∧
      tcw_wnd_widget_button_release_event { e with time := t } =
        tcw_wnd_widget_button_release_event e) ∧
    (∀ e₁ e₂ : GdkEventButton, e₁.etype = e₂.etype →
      ((tcw_wnd_widget_button_press_event e₁).1 = [] ↔
        (tcw_wnd_widget_button_press_event e₂).1 = [])) := by
  refine ⟨fun pre post ev => ?_, fun e t => ⟨rfl, rfl⟩, fun e₁ e₂ h => ?_⟩
  · induction pre with
    | nil => simp [processEvents]
    | cons x xs ih => simp [processEvents, ih]
  · by_cases hp : e₁.etype = GdkEventType.gdkButtonPress
    · have hp₂ : e₂.etype = GdkEventType.gdkButtonPress := h ▸ hp
      simp [tcw_wnd_widget_button_press_event, hp, hp₂]
    · have hp₂ : e₂.etype ≠ GdkEventType.gdkButtonPress := h ▸ hp
      simp [tcw_wnd_widget_button_press_event, hp, hp₂]

/-- Witness for C9 at concrete inputs: a press handled after a leave event
forwards the same calls as alone; shifting a press event's timestamp does
not change the result; two double-click-tagged presses with different
positions and times are both dropped. -/
theorem event_handling_stateless_witness :
    processEvents ([NativeEvent.leave ⟨GdkEventType.gdkLeaveNotify, 0⟩] ++
        NativeEvent.press ⟨GdkEventType.gdkButtonPress, 1, 2, 1, 3⟩ :: []) =
      processEvents [NativeEvent.leave ⟨GdkEventType.gdkLeaveNotify, 0⟩] ++
        (handleEvent
          (NativeEvent.press ⟨GdkEventType.gdkButtonPress, 1, 2, 1, 3⟩)).1 ++
        processEvents [] ∧
    tcw_wnd_widget_button_press_event
        { (⟨GdkEventType.gdkButtonPress, 1, 2, 1, 3⟩ : GdkEventButton)
          with time := 99 } =
      tcw_wnd_widget_button_press_event
        ⟨GdkEventType.gdkButtonPress, 1, 2, 1, 3⟩ ∧
    ((tcw_wnd_widget_button_press_event
        ⟨GdkEventType.gdk2ButtonPress, 1, 2, 1, 3⟩).1 = [] ↔
      (tcw_wnd_widget_button_press_event
        ⟨GdkEventType.gdk2ButtonPress, 7, 8, 2, 55⟩).1 = []) :=
  ⟨event_handling_stateless.1
      [NativeEvent.leave ⟨GdkEventType.gdkLeaveNotify, 0⟩] []
      (NativeEvent.press ⟨GdkEventType.gdkButtonPress, 1, 2, 1, 3⟩),
   (event_handling_stateless.2.1
      ⟨GdkEventType.gdkButtonPress, 1, 2, 1, 3⟩ 99).1,
   event_handling_stateless.2.2
      ⟨GdkEventType.gdk2ButtonPress, 1, 2, 1, 3⟩
      ⟨GdkEventType.gdk2ButtonPress, 7, 8, 2, 55⟩ rfl⟩

end Tcw
